import Mathlib

/-!
Shallow embedding of the `Tooltip` React component
(`src/components/Tooltip/Tooltip.js` of carbon-components-react).

The component keeps a boolean open/closed state, an internal
`_hasContextMenu` flag, and a debounced hover handler
(`_debouncedHandleHover`, lodash debounce with a 200ms trailing window).
We model the instance as a record `TState`; the debounce is modelled by a
`pending` slot holding the arguments of the latest scheduled call (lodash
trailing debounce keeps only the last call's arguments), and `elapse`
models the debounce window expiring with no further events, which fires
the pending call.  DOM containment tests (`Element.contains`) are
modelled by boolean fields carried by the event records.
-/

namespace Tooltip

/-- The `evt.type` values routed to `handleMouse` by the rendered markup:
`onClick`, `onMouseOver`, `onMouseOut`, `onFocus`, `onBlur` on the trigger
and additionally `onContextMenu` on the tooltip body. -/
inductive EventType
  | mouseover
  | mouseout
  | focus
  | blur
  | click
  | contextmenu
deriving DecidableEq, Repr

/-- The values of the lookup table in `handleMouse`:
`{mouseover: 'over', mouseout: 'out', focus: 'over', blur: 'out', click: 'click'}`. -/
inductive HoverState
  | over
  | out
  | click
deriving DecidableEq, Repr

/-- The lookup `{mouseover: 'over', ...}[evt.type]` in `handleMouse`.
`contextmenu` is not a key of the table, so the lookup yields
`undefined`, modelled as `none`. -/
def eventState : EventType → Option HoverState
  | .mouseover => some .over
  | .mouseout => some .out
  | .focus => some .over
  | .blur => some .out
  | .click => some .click
  | .contextmenu => none

/-- The DOM facts `_handleHover` queries about `evt.relatedTarget` when it
is non-null: `inTrigger` models
`triggerEl && triggerEl.contains && triggerEl.contains(relatedTarget)`
and `inTooltip` models `_tooltipEl && _tooltipEl.contains(relatedTarget)`. -/
structure RelTarget where
  inTrigger : Bool
  inTooltip : Bool
deriving DecidableEq, Repr

/-- One mouse/focus event as seen by `handleMouse`: its `type` and its
`relatedTarget` (`none` models a null/undefined related target). -/
structure MouseEvent where
  type : EventType
  relatedTarget : Option RelTarget
deriving DecidableEq, Repr

/-- The arguments of a scheduled `_debouncedHandleHover(state, relatedTarget)`
call waiting for the debounce window to expire. -/
structure PendingCall where
  hstate : HoverState
  relatedTarget : Option RelTarget
deriving DecidableEq, Repr

/-- The mutable instance data of the component relevant to the claims:
`isOpen` models `this.state.open`, `hasContextMenu` models
`this._hasContextMenu`, and `pending` models the trailing call held by
the lodash-debounced `_debouncedHandleHover`. -/
structure TState where
  isOpen : Bool
  hasContextMenu : Bool
  pending : Option PendingCall
deriving DecidableEq, Repr

/-- Observable side effects of one `handleMouse` call:
whether `evt.stopPropagation()` ran and whether `getTriggerPosition()`
was invoked synchronously. -/
structure Effects where
  stoppedPropagation : Bool
  recomputedPosition : Bool
deriving DecidableEq, Repr

/-- `_handleHover(state, relatedTarget)`: on `'over'` it recomputes the
trigger position and sets `open` to true; otherwise it sets `open` to
false unless the related target is inside the trigger or the tooltip
body.  The returned boolean records whether `getTriggerPosition` ran. -/
def handleHover (hstate : HoverState) (relatedTarget : Option RelTarget)
    (st : TState) : TState × Bool :=
  match hstate with
  | .over => ({ st with isOpen := true }, true)
  | _ =>
    let shouldPreventClose :=
      match relatedTarget with
      | some rt => rt.inTrigger || rt.inTooltip
      | none => false
    if shouldPreventClose then (st, false)
    else ({ st with isOpen := false }, false)

/-- The debounce window of `_debouncedHandleHover` expiring with no
further calls: the pending trailing call, if any, fires with its stored
arguments and the slot empties. -/
def elapse (st : TState) : TState :=
  match st.pending with
  | none => st
  | some c => { (handleHover c.hstate c.relatedTarget st).1 with pending := none }

/-- `handleMouse(evt)`: reads the event kind from the lookup table, saves
and updates `_hasContextMenu`, then either (click mode) toggles `open`
synchronously on a click — stopping propagation and recomputing the
trigger position exactly when the toggle opens — or (hover mode)
schedules the debounced hover handler unless the event is an `'out'`
immediately preceded by a `contextmenu` event. -/
def handleMouse (clickToOpen : Bool) (evt : MouseEvent) (st : TState) :
    TState × Effects :=
  let hstate := eventState evt.type
  let hadContextMenu := st.hasContextMenu
  let st := { st with hasContextMenu := evt.type == .contextmenu }
  if clickToOpen then
    match hstate with
    | some .click =>
      let shouldOpen := !st.isOpen
      ({ st with isOpen := shouldOpen },
       { stoppedPropagation := true, recomputedPosition := shouldOpen })
    | _ => (st, { stoppedPropagation := false, recomputedPosition := false })
  else
    match hstate with
    | some s =>
      if s != .out || !hadContextMenu then
        ({ st with pending := some ⟨s, evt.relatedTarget⟩ },
         { stoppedPropagation := false, recomputedPosition := false })
      else (st, { stoppedPropagation := false, recomputedPosition := false })
    | none => (st, { stoppedPropagation := false, recomputedPosition := false })

/-- A click that happened outside the component, as seen by
`handleClickOutside`: `hasTarget` models `evt.target` being non-null and
`containsTarget` models `_tooltipEl.contains(evt.target)`. -/
structure OutsideClickEvent where
  hasTarget : Bool
  containsTarget : Bool
deriving DecidableEq, Repr

/-- `handleClickOutside(evt)`: closes the tooltip unless the event exists,
has a target, the tooltip body element exists, and the body contains the
target.  `tooltipElPresent` models `this._tooltipEl` being non-null. -/
def handleClickOutside (tooltipElPresent : Bool)
    (evt : Option OutsideClickEvent) (st : TState) : TState :=
  let shouldPreventClose :=
    match evt with
    | some e => e.hasTarget && tooltipElPresent && e.containsTarget
    | none => false
  if shouldPreventClose then st else { st with isOpen := false }

/-- The value `evt.key || evt.which` computes to: a string (from a truthy
`evt.key`) or a numeric key code (from `evt.which`); `none` when both are
falsy. -/
inductive KeyVal
  | str (s : String)
  | code (n : Nat)
deriving DecidableEq, Repr

/-- A keyboard event as seen by `handleKeyPress`: `key` models `evt.key`
(`none` for undefined; the empty string is falsy too) and `which` models
`evt.which` (`none` for undefined; 0 is falsy). -/
structure KeyEvent where
  key : Option String
  which : Option Nat
deriving DecidableEq, Repr

/-- `const key = evt.key || evt.which` with JavaScript falsiness:
an undefined or empty-string `key` falls through to `which`, and an
undefined or zero `which` then yields a falsy value (`none`). -/
def keyOf (evt : KeyEvent) : Option KeyVal :=
  match evt.key with
  | some s => if s = "" then whichVal evt.which else some (.str s)
  | none => whichVal evt.which
where
  whichVal : Option Nat → Option KeyVal
    | some n => if n = 0 then none else some (.code n)
    | none => none

/-- The guard of `handleKeyPress`:
`key === 'Enter' || key === 13 || key === ' ' || key === 32`
(strict equality, so a string never equals a number). -/
def isToggleKey : Option KeyVal → Bool
  | some (.str s) => s == "Enter" || s == " "
  | some (.code n) => n == 13 || n == 32
  | none => false

/-- `handleKeyPress(evt)`: on Enter/Space (by name or by key code) it
stops propagation and toggles `open`; otherwise it does nothing.  The
returned boolean records whether `evt.stopPropagation()` ran. -/
def handleKeyPress (evt : KeyEvent) (st : TState) : TState × Bool :=
  if isToggleKey (keyOf evt) then
    ({ st with isOpen := !st.isOpen }, true)
  else (st, false)

/-- `defaultProps.open` of the component. -/
def defaultOpen : Bool := false

/-- The slice of `this.state` that `getDerivedStateFromProps` reads and
writes: the open flag and the remembered previous value of the `open`
prop (`none` models the initial `state = {}`, where `prevOpen` is
undefined). -/
structure DState where
  isOpen : Bool
  prevOpen : Option Bool
deriving DecidableEq, Repr

/-- `getDerivedStateFromProps({open}, state)`: returns null when the
`open` prop equals the remembered `prevOpen` (note: an undefined
`prevOpen` is never strictly equal to a boolean), and otherwise returns
the partial state `{open, prevOpen: open}`. -/
def getDerivedStateFromProps (propOpen : Bool) (prevOpen : Option Bool) :
    Option (Bool × Bool) :=
  if prevOpen = some propOpen then none
  else some (propOpen, propOpen)

/-- React merging the object returned by `getDerivedStateFromProps` into
the component state before a render (a null return leaves state as is). -/
def applyDerived (propOpen : Bool) (st : DState) : DState :=
  match getDerivedStateFromProps propOpen st.prevOpen with
  | none => st
  | some (o, p) => { isOpen := o, prevOpen := some p }

/-- `direction` prop values: where to place the floating menu. -/
inductive Direction
  | left
  | top
  | right
  | bottom
deriving DecidableEq, Repr

/-- The part of the rendered element tree the claims are about: the
trigger's `aria-expanded` value, whether the `aria-owns` prop is
present, and the conditionally rendered `FloatingMenu` (carrying its
`menuDirection`), which the JSX renders as `{open && <FloatingMenu ...>}`. -/
structure RenderOutput where
  ariaExpanded : Bool
  ariaOwns : Bool
  floatingMenu : Option Direction
deriving DecidableEq, Repr

/-- `render()`, restricted to the open-state-dependent parts: the trigger
gets `aria-expanded={open}` and `aria-owns` exactly when open, and the
`FloatingMenu` subtree (the floating panel) is emitted exactly when
`open` is truthy.  (`getDerivedStateFromProps` runs before every render,
so `state.open` is a boolean by then.) -/
def render (isOpen : Bool) (direction : Direction) : RenderOutput :=
  { ariaExpanded := isOpen
    ariaOwns := isOpen
    floatingMenu := if isOpen then some direction else none }

/-- Digits of a decimal numeral accumulated left to right; `none` as soon
as a non-digit appears. -/
def digitsToNatAux : List Char → Nat → Option Nat
  | [], acc => some acc
  | c :: cs, acc =>
    if c.isDigit then digitsToNatAux cs (acc * 10 + (c.toNat - 48))
    else none

/-- JavaScript `Number` of a nonempty all-digit string; `none` otherwise. -/
def digitsToNat : List Char → Option Nat
  | [] => none
  | c :: cs => digitsToNatAux (c :: cs) 0

/-- JavaScript `Number(body)` for a `body` captured by the regular
expression group `([\d-]+)`: an optional single leading hyphen followed by
at least one digit yields an integer; every other digit/hyphen
combination (and the no-match `undefined` case, handled by the caller)
yields NaN, modelled as `none`.  Pixel style values are small, so exact
integers model the IEEE doubles faithfully here. -/
def jsNumber : List Char → Option Int
  | '-' :: rest => (digitsToNat rest).map fun n => -(n : Int)
  | cs => (digitsToNat cs).map fun n => (n : Int)

/-- `Number((/^([\d-]+)px$/.exec(v) || [])[1])`: the whole string must be
one or more digits/hyphens followed by `px`; the captured body is then
converted by `Number`.  `none` models NaN. -/
def parsePx (s : String) : Option Int :=
  let cs := s.data
  let n := cs.length
  if cs.drop (n - 2) = ['p', 'x'] && decide (3 ≤ n) then
    jsNumber (cs.take (n - 2))
  else none

/-- The `arrowPositionProp` lookup table of `getMenuOffset`: which side
property of the arrow's `::before` style is read for each direction. -/
def arrowPositionProp : Direction → String
  | .left => "right"
  | .top => "bottom"
  | .right => "left"
  | .bottom => "top"

/-- Which component of the returned offset `getMenuOffset` overwrites. -/
inductive AdjProp
  | left
  | top
deriving DecidableEq, Repr

/-- The `menuPositionAdjustmentProp` lookup table of `getMenuOffset`. -/
def menuPositionAdjustmentProp : Direction → AdjProp
  | .left => .left
  | .top => .top
  | .right => .left
  | .bottom => .top

/-- `values[arrowPositionProp] = values[arrowPositionProp] || -6`:
JavaScript `||` replaces a falsy left operand, and both NaN and 0 are
falsy, so a failed parse or a parsed 0 becomes -6. -/
def jsOrDefault (v : Option Int) (d : Int) : Int :=
  match v with
  | none => d
  | some n => if n = 0 then d else n

/-- The floating-menu offset, with real-valued components. -/
structure Offset where
  left : ℝ
  top : ℝ

/-- `getMenuOffset(menuBody, menuDirection)`: parses the arrow-position
property (per direction) and `border-bottom-width` from the arrow's
computed `::before` style (modelled as the map `style` from property name
to value string), defaults the arrow position to -6 when falsy, and — if
no remaining value is NaN (only `border-bottom-width` can still be) —
returns `{left: 0, top: 0}` with the direction's adjustment component
replaced by `Math.sqrt(Math.pow(borderBottomWidth, 2) * 2) -
arrowPosition`; otherwise it falls through, returning `undefined`
(`none`) without raising. -/
noncomputable def getMenuOffset (style : String → String)
    (menuDirection : Direction) : Option Offset :=
  let app := arrowPositionProp menuDirection
  let adjProp := menuPositionAdjustmentProp menuDirection
  let arrowRaw := parsePx (style app)
  let bbwRaw := parsePx (style "border-bottom-width")
  let arrowPosition := jsOrDefault arrowRaw (-6)
  match bbwRaw with
  | none => none
  | some borderBottomWidth =>
    let v := Real.sqrt ((borderBottomWidth : ℝ) ^ 2 * 2) - (arrowPosition : ℝ)
    match adjProp with
    | .left => some { left := v, top := 0 }
    | .top => some { left := 0, top := v }

/-- Modelled from the claim's words, for the refinement proof: start from
an offset `{left: 0, top: 0}`; replace its top component (directions top
and bottom) or left component (directions left and right) by
`sqrt(borderBottomWidth^2 * 2) - arrowPosition`, where the two operands
are parsed as pixel numbers from the arrow style at property
`border-bottom-width` and at `right`/`bottom`/`left`/`top` for direction
left/top/right/bottom respectively, `arrowPosition` defaulting to -6 when
its parsed value is missing or zero; when the remaining parsed value is
NaN, yield `undefined` instead of an error. -/
noncomputable def specMenuOffset (style : String → String)
    (menuDirection : Direction) : Option Offset :=
  let base : Offset := { left := 0, top := 0 }
  let prm :=
    match menuDirection with
    | .left => "right"
    | .top => "bottom"
    | .right => "left"
    | .bottom => "top"
  let arrowPosition : Int :=
    match parsePx (style prm) with
    | none => -6
    | some a => if a = 0 then -6 else a
  match parsePx (style "border-bottom-width") with
  | none => none
  | some b =>
    let v := Real.sqrt ((b : ℝ) ^ 2 * 2) - (arrowPosition : ℝ)
    match menuDirection with
    | .top => some { base with top := v }
    | .bottom => some { base with top := v }
    | .left => some { base with left := v }
    | .right => some { base with left := v }

/-- The claim's phrase "the event's relatedTarget is contained in the
trigger element or the tooltip panel element" as a predicate on the
modelled related target. -/
def relatedContained : Option RelTarget → Bool
  | some rt => rt.inTrigger || rt.inTooltip
  | none => false

/-- C1: For every render of the Tooltip component, the floating panel
element (the FloatingMenu subtree) is present in the rendered output if
and only if the component's open state is true. -/
theorem panel_rendered_iff_open (isOpen : Bool) (dir : Direction) :
    ((render isOpen dir).floatingMenu).isSome = true ↔ isOpen = true := by
  cases isOpen <;> simp [render]

/-- C2 (amended): In hover mode, a mouseover or focus event opens the
tooltip once the debounce window elapses; a mouseout or blur event —
provided the immediately preceding handled event was not a contextmenu
event — closes it once the window elapses unless the relatedTarget is
contained in the trigger or the tooltip panel, in which case the open
state is unchanged; when the immediately preceding handled event was a
contextmenu event, handling the mouseout or blur leaves the open state
and the scheduled hover call unchanged. -/
theorem hover_mode_debounced_open_close (b cm : Bool) (p : Option PendingCall)
    (rt : Option RelTarget) :
    (elapse (handleMouse false ⟨.mouseover, rt⟩ ⟨b, cm, p⟩).1).isOpen = true ∧
    (elapse (handleMouse false ⟨.focus, rt⟩ ⟨b, cm, p⟩).1).isOpen = true ∧
    (elapse (handleMouse false ⟨.mouseout, rt⟩ ⟨b, false, p⟩).1).isOpen =
      (if relatedContained rt then b else false) ∧
    (elapse (handleMouse false ⟨.blur, rt⟩ ⟨b, false, p⟩).1).isOpen =
      (if relatedContained rt then b else false) ∧
    (handleMouse false ⟨.mouseout, rt⟩ ⟨b, true, p⟩).1 = ⟨b, false, p⟩ ∧
    (handleMouse false ⟨.blur, rt⟩ ⟨b, true, p⟩).1 = ⟨b, false, p⟩ := by
  rcases rt with _ | ⟨t, tt⟩
  · simp [handleMouse, elapse, handleHover, eventState, relatedContained]
  · cases t <;> cases tt <;> cases b <;>
      simp [handleMouse, elapse, handleHover, eventState, relatedContained]

/-- C2 counterexample: when the immediately preceding handled event was a
contextmenu event, a mouseout whose relatedTarget is not contained in the
trigger or panel does NOT set the open state to false after the debounce
window — the tooltip stays open, contradicting the claim as stated. -/
theorem hover_close_after_contextmenu_cex :
    relatedContained none = false ∧
    (elapse (handleMouse false ⟨.mouseout, none⟩ ⟨true, true, none⟩).1).isOpen
      = true := by
  decide

/-- C3: When clickToOpen is true, a click on the trigger synchronously
toggles the open state (the debounced hover slot is untouched), stops
propagation of the event, and recomputes the trigger position exactly
when the toggle transitions the tooltip to open. -/
theorem click_mode_click_toggles (rt : Option RelTarget) (st : TState) :
    handleMouse true ⟨.click, rt⟩ st =
      ({ st with isOpen := !st.isOpen, hasContextMenu := false },
       { stoppedPropagation := true, recomputedPosition := !st.isOpen }) := by
  cases st
  simp [handleMouse, eventState]

/-- C4: In hover mode, when the previously handled event was a
contextmenu event, a mouseout or blur event is ignored — the component
state is unchanged except that the suppression flag is cleared, so no
close is scheduled; and handling any event sets the suppression flag to
true exactly when that event is itself a contextmenu event, so the
suppression applies only to the immediately following close. -/
theorem contextmenu_suppresses_next_close (b : Bool) (p : Option PendingCall)
    (rt : Option RelTarget) (c : Bool) (st : TState) :
    (handleMouse false ⟨.mouseout, rt⟩ ⟨b, true, p⟩).1 = ⟨b, false, p⟩ ∧
    (handleMouse false ⟨.blur, rt⟩ ⟨b, true, p⟩).1 = ⟨b, false, p⟩ ∧
    (handleMouse c ⟨.contextmenu, rt⟩ st).1.hasContextMenu = true ∧
    (handleMouse c ⟨.mouseover, rt⟩ st).1.hasContextMenu = false ∧
    (handleMouse c ⟨.mouseout, rt⟩ st).1.hasContextMenu = false ∧
    (handleMouse c ⟨.focus, rt⟩ st).1.hasContextMenu = false ∧
    (handleMouse c ⟨.blur, rt⟩ st).1.hasContextMenu = false ∧
    (handleMouse c ⟨.click, rt⟩ st).1.hasContextMenu = false := by
  rcases st with ⟨o, hcm, pd⟩
  cases c <;> cases hcm <;>
    simp [handleMouse, eventState]

/-- C5: For every click event outside the component, the open state is
set to false unless the click target is contained in the tooltip panel
element (which presupposes that the event has a target and that the
panel element exists), in which case the state is unchanged. -/
theorem click_outside_closes (tp : Bool) (e : OutsideClickEvent)
    (st : TState) :
    handleClickOutside tp (some e) st =
      (if e.hasTarget && tp && e.containsTarget then st
       else { st with isOpen := false }) := by
  cases e
  simp [handleClickOutside]

/-- C6: A key press whose key (the value of `evt.key || evt.which`) is
'Enter', ' ', 13, or 32 toggles the open state and stops propagation of
the event; any other key leaves the open state unchanged and does not
stop propagation. -/
theorem keypress_toggles_open (evt : KeyEvent) (st : TState) :
    handleKeyPress evt st =
      (if keyOf evt = some (.str "Enter") ∨ keyOf evt = some (.str " ") ∨
          keyOf evt = some (.code 13) ∨ keyOf evt = some (.code 32) then
        ({ st with isOpen := !st.isOpen }, true)
       else (st, false)) := by
  have hiff : isToggleKey (keyOf evt) = true ↔
      (keyOf evt = some (.str "Enter") ∨ keyOf evt = some (.str " ") ∨
        keyOf evt = some (.code 13) ∨ keyOf evt = some (.code 32)) := by
    rcases keyOf evt with _ | (⟨s⟩ | ⟨n⟩) <;> simp [isToggleKey]
  by_cases hk : keyOf evt = some (.str "Enter") ∨ keyOf evt = some (.str " ") ∨
      keyOf evt = some (.code 13) ∨ keyOf evt = some (.code 32)
  · rw [if_pos hk, handleKeyPress, if_pos (hiff.mpr hk)]
  · rw [if_neg hk, handleKeyPress,
      if_neg (fun hb => hk (hiff.mp hb))]

/-- C7: The open state is initialized from the external open prop (whose
default is false): on the first render the remembered previous prop is
undefined, so getDerivedStateFromProps overwrites the state with the
prop; on every render it overwrites the internal open state with the
prop value exactly when the prop differs from its remembered previous
value, and returns null — leaving state unchanged — otherwise. -/
theorem open_state_controlled_by_prop (p b : Bool) (st : DState) :
    defaultOpen = false ∧
    applyDerived p ⟨b, none⟩ = ⟨p, some p⟩ ∧
    applyDerived p st =
      (if st.prevOpen = some p then st else ⟨p, some p⟩) ∧
    (getDerivedStateFromProps p st.prevOpen = none ↔
      st.prevOpen = some p) := by
  refine ⟨rfl, ?_, ?_, ?_⟩
  · simp [applyDerived, getDerivedStateFromProps]
  · rcases st with ⟨o, po⟩
    by_cases h : po = some p <;>
      simp [applyDerived, getDerivedStateFromProps, h]
  · rcases st with ⟨o, po⟩
    by_cases h : po = some p <;> simp [getDerivedStateFromProps, h]

/-- C8 counterexample: no contextmenu event ever changes the open state
by its own handling — in both modes `handleMouse` on a contextmenu event
leaves `state.open` untouched (it only arms the suppression flag), so
the claim's "for some contextmenu event the handling of that event
itself changes the open state" is false. -/
theorem contextmenu_mutates_open_cex :
    ¬ ∃ (c : Bool) (rt : Option RelTarget) (st : TState),
        (handleMouse c ⟨.contextmenu, rt⟩ st).1.isOpen ≠ st.isOpen := by
  rintro ⟨c, rt, st, h⟩
  exact h (by cases c <;> rfl)

/-- C8 (amended): hover, click, keyboard, and outside-click events can
each mutate the open/closed boolean (witnessed at concrete states), but
a contextmenu event never itself changes the open state or the scheduled
hover call — its handling only sets the suppression flag. -/
theorem events_mutating_open (c : Bool) (rt : Option RelTarget)
    (st : TState) :
    (elapse (handleMouse false ⟨.mouseover, none⟩ ⟨false, false, none⟩).1).isOpen
        = true ∧
    (handleMouse true ⟨.click, none⟩ ⟨false, false, none⟩).1.isOpen = true ∧
    (handleKeyPress ⟨some "Enter", none⟩ ⟨false, false, none⟩).1.isOpen = true ∧
    (handleClickOutside false (some ⟨true, true⟩) ⟨true, false, none⟩).isOpen
        = false ∧
    (handleMouse c ⟨.contextmenu, rt⟩ st).1.isOpen = st.isOpen ∧
    (handleMouse c ⟨.contextmenu, rt⟩ st).1.pending = st.pending ∧
    (handleMouse c ⟨.contextmenu, rt⟩ st).1.hasContextMenu = true := by
  refine ⟨by decide, by decide, by decide, by decide, ?_, ?_, ?_⟩ <;>
    cases c <;> rfl

/-- C9: getMenuOffset returns an offset {left: 0, top: 0} whose top
component (directions top and bottom) or left component (directions left
and right) is replaced by sqrt(borderBottomWidth^2 * 2) - arrowPosition,
both operands parsed as pixel numbers from the arrow's computed style
(the arrow position property being right/bottom/left/top for direction
left/top/right/bottom), arrowPosition defaulting to -6 when its parsed
value is missing or zero; when the remaining parsed value is NaN the
function returns undefined rather than raising an error.  Stated as a
refinement: the source function equals the formula modelled from the
claim's words. -/
theorem menu_offset_formula (style : String → String) (d : Direction) :
    getMenuOffset style d = specMenuOffset style d := by
  unfold getMenuOffset specMenuOffset
  cases d <;>
    simp only [arrowPositionProp, menuPositionAdjustmentProp, jsOrDefault]

/-- C10: When clickToOpen is true, mouseover, mouseout, focus, blur, and
contextmenu events never change the open state and never touch the
scheduled debounced hover call; among the events routed to handleMouse,
only click affects the open state in click mode. -/
theorem click_mode_frame (rt : Option RelTarget) (st : TState) :
    ((handleMouse true ⟨.mouseover, rt⟩ st).1.isOpen = st.isOpen ∧
      (handleMouse true ⟨.mouseover, rt⟩ st).1.pending = st.pending) ∧
    ((handleMouse true ⟨.mouseout, rt⟩ st).1.isOpen = st.isOpen ∧
      (handleMouse true ⟨.mouseout, rt⟩ st).1.pending = st.pending) ∧
    ((handleMouse true ⟨.focus, rt⟩ st).1.isOpen = st.isOpen ∧
      (handleMouse true ⟨.focus, rt⟩ st).1.pending = st.pending) ∧
    ((handleMouse true ⟨.blur, rt⟩ st).1.isOpen = st.isOpen ∧
      (handleMouse true ⟨.blur, rt⟩ st).1.pending = st.pending) ∧
    ((handleMouse true ⟨.contextmenu, rt⟩ st).1.isOpen = st.isOpen ∧
      (handleMouse true ⟨.contextmenu, rt⟩ st).1.pending = st.pending) := by
  cases st
  simp [handleMouse, eventState]

end Tooltip
